import Mathlib

/-!
Shallow embedding of the two source files of this repository:
a browser script (animation helpers around a DOM class list, and a
closure-based counter) and a one-route payment relay server.
Pure functions become Lean functions; the DOM class list of an element
becomes an explicit token list threaded through calls; the outbound
HTTP call of the server becomes a function parameter whose outcome is
an Except value.
-/

namespace WebPages

/-- Model of a DOMTokenList (element.classList): an ordered list of
class tokens without duplicates being enforced by add. -/
structure DomTokenList where
  tokens : List String
deriving Repr, DecidableEq

namespace DomTokenList

/-- classList.contains(t). -/
def contains (l : DomTokenList) (t : String) : Bool :=
  l.tokens.contains t

/-- classList.add(t): appends the token unless it is already present. -/
def add (l : DomTokenList) (t : String) : DomTokenList :=
  if l.tokens.contains t then l else ⟨l.tokens ++ [t]⟩

/-- classList.remove(t): removes every occurrence of the token. -/
def remove (l : DomTokenList) (t : String) : DomTokenList :=
  ⟨l.tokens.filter (fun x => x ≠ t)⟩

/-- classList.toggle(t): removes the token when present, adds it otherwise. -/
def toggle (l : DomTokenList) (t : String) : DomTokenList :=
  if l.tokens.contains t then l.remove t else l.add t

end DomTokenList

/-- A DOM element: an identity (standing for the JS object reference)
together with its class list. -/
structure Element where
  ref : Nat
  classList : DomTokenList
deriving Repr, DecidableEq

/-- Return value of manageAnimationState:
\x7b success, newState, element \x7d. The element field holds the (mutated)
element the reference points to after the call. -/
structure AnimationStateResult where
  success : Bool
  newState : Bool
  element : Element
deriving Repr, DecidableEq

/-- manageAnimationState(element, action) from src/script.js lines 99-128.
The switch on the action string adds, removes or toggles the class
"animating"; any other action only warns (modelled by the Bool in the
second component) and leaves result = false. The returned record re-reads
the class list for newState and carries the element reference. -/
def manageAnimationState (element : Element) (action : String) :
    AnimationStateResult × Bool :=
  let currentState := element.classList.contains "animating"
  let step : Element × Bool × Bool :=
    if action = "start" then
      ({ element with classList := element.classList.add "animating" }, true, false)
    else if action = "stop" then
      ({ element with classList := element.classList.remove "animating" }, true, false)
    else if action = "toggle" then
      ({ element with classList := element.classList.toggle "animating" }, !currentState, false)
    else
      (element, false, true)
  (⟨step.2.1, step.1.classList.contains "animating", step.1⟩, step.2.2)

/-- n successive toggle calls on an element, each call acting on the
element returned by the previous one (as the event handlers do when they
reuse the same DOM reference). -/
def iterateToggle (el : Element) : Nat → Element
  | 0 => el
  | n + 1 => (manageAnimationState (iterateToggle el n) "toggle").1.element

/-- calculateAnimationDuration(baseDuration, speedMultiplier, elementSize)
from src/script.js lines 42-50, over the rationals standing in for JS
numbers: sizeFactor = elementSize / 100, then
baseDuration * speedMultiplier * sizeFactor. -/
def calculateAnimationDuration (baseDuration speedMultiplier elementSize : ℚ) : ℚ :=
  let sizeFactor := elementSize / 100
  let adjustedDuration := baseDuration * speedMultiplier * sizeFactor
  adjustedDuration

/-- Closure state of createScopedCounter: the private count together with
the initialValue captured at construction time. -/
structure Counter where
  count : Int
  initialValue : Int
deriving Repr, DecidableEq

/-- createScopedCounter(initialValue) from src/script.js lines 138-162:
count starts at initialValue. In the source initialValue defaults to 0. -/
def createScopedCounter (initialValue : Int) : Counter :=
  ⟨initialValue, initialValue⟩

namespace Counter

/-- counter.increment(step): count += step, returns count. In the source
step defaults to 1. The pair is (returned value, closure state after). -/
def increment (c : Counter) (step : Int) : Int × Counter :=
  (c.count + step, { c with count := c.count + step })

/-- counter.decrement(step): count -= step, returns count. In the source
step defaults to 1. -/
def decrement (c : Counter) (step : Int) : Int × Counter :=
  (c.count - step, { c with count := c.count - step })

/-- counter.reset(): count = initialValue, returns count. -/
def reset (c : Counter) : Int × Counter :=
  (c.initialValue, { c with count := c.initialValue })

/-- counter.getValue(): returns count without touching the closure state. -/
def getValue (c : Counter) : Int × Counter :=
  (c.count, c)

end Counter

/-- A JS/JSON value, enough to carry request and response bodies through
the payment relay unchanged. -/
inductive JsValue where
  | str (s : String)
  | num (n : Int)
  | obj (fields : List (String × JsValue))
deriving Repr

/-- Inbound body of POST /pay: req.body.amount, req.body.email,
req.body.name as read by the handler. -/
structure InboundPayBody where
  amount : JsValue
  email : JsValue
  name : JsValue
deriving Repr

/-- customer object of the upstream request body. -/
structure Customer where
  email : JsValue
  name : JsValue
deriving Repr

/-- The upstream request body built in src/server.js lines 18-28. -/
structure UpstreamPaymentRequest where
  tx_ref : String
  amount : JsValue
  currency : String
  redirect_url : String
  customer : Customer
  payment_options : String
deriving Repr

/-- Construction of the upstream body: tx_ref = Date.now().toString()
with now the wall clock in milliseconds, amount/email/name passed
through from the inbound body, the other fields literal constants. -/
def buildUpstreamBody (now : Nat) (body : InboundPayBody) : UpstreamPaymentRequest :=
  { tx_ref := toString now
    amount := body.amount
    currency := "KES"
    redirect_url := "https://your-site.com/callback"
    customer := { email := body.email, name := body.name }
    payment_options := "card,mpesa,ussd" }

/-- The axios response as used by the handler: only its data field. -/
structure AxiosResponse where
  data : JsValue
deriving Repr

/-- A thrown JS error as used by the catch branch: only its message. -/
structure JsError where
  message : String
deriving Repr, DecidableEq

/-- An HTTP response sent by the handler: status and JSON body. -/
structure HttpResponse where
  status : Nat
  body : JsValue
deriving Repr

/-- The POST /pay handler from src/server.js lines 14-40. The awaited
axios.post call is the upstream parameter; its outcome on the built
request body decides the branch: res.json(response.data) with the
implicit status 200, or res.status(500).json with an object holding
error.message. -/
def payHandler (now : Nat) (body : InboundPayBody)
    (upstream : UpstreamPaymentRequest → Except JsError AxiosResponse) :
    HttpResponse :=
  match upstream (buildUpstreamBody now body) with
  | Except.ok response => { status := 200, body := response.data }
  | Except.error error => { status := 500, body := JsValue.obj [("error", JsValue.str error.message)] }

end WebPages

namespace WebPages

namespace DomTokenList

/-- Adding a token makes contains report true. -/
theorem contains_add (l : DomTokenList) (t : String) :
    (l.add t).contains t = true := by
  simp only [add, contains]
  split
  · assumption
  · simp

/-- Removing a token makes contains report false. -/
theorem contains_remove (l : DomTokenList) (t : String) :
    (l.remove t).contains t = false := by
  simp [remove, contains, List.mem_filter]

/-- Toggling flips the contains flag. -/
theorem contains_toggle (l : DomTokenList) (t : String) :
    (l.toggle t).contains t = !(l.contains t) := by
  simp only [toggle]
  split
  · next h =>
      have h2 := contains_remove l t
      simp only [contains] at *
      simp at h h2 ⊢
      simp [h, h2]
  · next h =>
      have h2 := contains_add l t
      simp only [contains] at *
      simp at h h2 ⊢
      simp [h, h2]

/-- Adding a token that is already present leaves the list unchanged. -/
theorem add_already (l : DomTokenList) (t : String) (h : l.contains t = true) :
    l.add t = l := by
  simp only [contains] at h
  simp at h
  simp [add, h]

/-- Removing the same token twice equals removing it once. -/
theorem remove_idem (l : DomTokenList) (t : String) :
    (l.remove t).remove t = l.remove t := by
  simp [remove, List.filter_filter]

end DomTokenList

/-- A toggle call flips the post-call presence of the class. -/
theorem manage_toggle_contains (el : Element) :
    (manageAnimationState el "toggle").1.element.classList.contains "animating"
      = !(el.classList.contains "animating") := by
  simp [manageAnimationState, DomTokenList.contains_toggle]

end WebPages

namespace WebPages

/-- Claim C1: for every element and every prior class state, the start
action adds the "animating" class and reports success = true, and the
stop action removes the class and reports success = true, in both cases
independently of whether the class was present at entry. -/
theorem start_stop_always_succeed (el : Element) :
    (manageAnimationState el "start").1.success = true ∧
    (manageAnimationState el "start").1.element.classList.contains "animating" = true ∧
    (manageAnimationState el "stop").1.success = true ∧
    (manageAnimationState el "stop").1.element.classList.contains "animating" = false := by
  refine ⟨?_, ?_, ?_, ?_⟩ <;>
    simp [manageAnimationState, DomTokenList.contains_add, DomTokenList.contains_remove]

/-- Claim C2: the toggle action flips the presence of the "animating"
class read at entry, and the returned success equals the new boolean
class state, the negation of the state at entry. -/
theorem toggle_flips_and_reports_new_state (el : Element) :
    (manageAnimationState el "toggle").1.element.classList.contains "animating"
      = !(el.classList.contains "animating") ∧
    (manageAnimationState el "toggle").1.success
      = !(el.classList.contains "animating") ∧
    (manageAnimationState el "toggle").1.success
      = (manageAnimationState el "toggle").1.newState := by
  refine ⟨manage_toggle_contains el, ?_, ?_⟩ <;>
    simp [manageAnimationState, DomTokenList.contains_toggle]

/-- Claim C3: for every action string other than "start", "stop" and
"toggle", manageAnimationState performs no mutation (the element comes
back unchanged), emits a warning (the warned flag of the model), and
returns success = false; as a total Lean function it cannot throw. -/
theorem invalid_action_is_ignored (el : Element) (action : String)
    (h1 : action ≠ "start") (h2 : action ≠ "stop") (h3 : action ≠ "toggle") :
    (manageAnimationState el action).1.element = el ∧
    (manageAnimationState el action).2 = true ∧
    (manageAnimationState el action).1.success = false := by
  refine ⟨?_, ?_, ?_⟩ <;> simp [manageAnimationState, h1, h2, h3]

/-- Claim C3 witness: the action "bogus" at a concrete element. -/
theorem invalid_action_is_ignored_witness :
    (manageAnimationState ⟨0, ⟨["glow"]⟩⟩ "bogus").1.element = ⟨0, ⟨["glow"]⟩⟩ ∧
    (manageAnimationState ⟨0, ⟨["glow"]⟩⟩ "bogus").2 = true ∧
    (manageAnimationState ⟨0, ⟨["glow"]⟩⟩ "bogus").1.success = false :=
  invalid_action_is_ignored ⟨0, ⟨["glow"]⟩⟩ "bogus"
    (by decide) (by decide) (by decide)

/-- Claim C8: for every element and every action string, the returned
record has newState equal to the post-operation class presence re-read
from the element, and carries the very element reference that was passed
in (same identity, post-operation class list). -/
theorem result_reads_post_state_and_element (el : Element) (action : String) :
    (manageAnimationState el action).1.newState
      = (manageAnimationState el action).1.element.classList.contains "animating" ∧
    (manageAnimationState el action).1.element.ref = el.ref := by
  constructor
  · rfl
  · simp only [manageAnimationState]
    by_cases h1 : action = "start"
    · simp [h1]
    · by_cases h2 : action = "stop"
      · simp [h1, h2]
      · by_cases h3 : action = "toggle"
        · simp [h1, h2, h3]
        · simp [h1, h2, h3]

end WebPages

namespace WebPages

/-- After an even number of toggle calls the class presence is back to
its original value. -/
theorem iterateToggle_even_contains (el : Element) (n : Nat) :
    (iterateToggle el (2 * n)).classList.contains "animating"
      = el.classList.contains "animating" := by
  induction n with
  | zero => rfl
  | succ k ih =>
      have hstep : 2 * (k + 1) = (2 * k) + 1 + 1 := by ring
      rw [hstep]
      simp only [iterateToggle, manage_toggle_contains, ih, Bool.not_not]

/-- Claim C9: starting and then stopping leaves the "animating" class
absent whatever the initial state was, and an even number of toggle
calls returns the element to its original class state. -/
theorem start_stop_and_even_toggles (el : Element) (n : Nat) :
    (manageAnimationState (manageAnimationState el "start").1.element "stop").1.element.classList.contains "animating" = false ∧
    (iterateToggle el (2 * n)).classList.contains "animating"
      = el.classList.contains "animating" := by
  constructor
  · simp [manageAnimationState, DomTokenList.contains_remove]
  · exact iterateToggle_even_contains el n

/-- Claim C10: the start action forces the class present and newState
true regardless of the prior state, the stop action forces the class
absent and newState false, and repeating the same action immediately
changes neither the class state nor the reported newState: the second
call even returns an identical element state. -/
theorem start_stop_idempotent (el : Element) :
    (manageAnimationState el "start").1.newState = true ∧
    (manageAnimationState el "start").1.element.classList.contains "animating" = true ∧
    (manageAnimationState el "stop").1.newState = false ∧
    (manageAnimationState el "stop").1.element.classList.contains "animating" = false ∧
    (manageAnimationState (manageAnimationState el "start").1.element "start").1.element
      = (manageAnimationState el "start").1.element ∧
    (manageAnimationState (manageAnimationState el "start").1.element "start").1.newState
      = (manageAnimationState el "start").1.newState ∧
    (manageAnimationState (manageAnimationState el "stop").1.element "stop").1.element
      = (manageAnimationState el "stop").1.element ∧
    (manageAnimationState (manageAnimationState el "stop").1.element "stop").1.newState
      = (manageAnimationState el "stop").1.newState := by
  have hadd : (el.classList.add "animating").add "animating" = el.classList.add "animating" :=
    DomTokenList.add_already _ _ (DomTokenList.contains_add _ _)
  refine ⟨?_, ?_, ?_, ?_, ?_, ?_, ?_, ?_⟩ <;>
    simp [manageAnimationState, DomTokenList.contains_add, DomTokenList.contains_remove,
      hadd, DomTokenList.remove_idem]

end WebPages

namespace WebPages

/-- Claim C4: when the upstream call succeeds the handler answers 200
with the upstream JSON body verbatim, and when it fails for any reason
the handler answers 500 with an object whose error field carries the
thrown message; nothing else of the failure reaches the response. -/
theorem pay_relays_or_500 (now : Nat) (body : InboundPayBody)
    (upstream : UpstreamPaymentRequest → Except JsError AxiosResponse) :
    (∀ r : AxiosResponse, upstream (buildUpstreamBody now body) = Except.ok r →
      payHandler now body upstream = { status := 200, body := r.data }) ∧
    (∀ e : JsError, upstream (buildUpstreamBody now body) = Except.error e →
      payHandler now body upstream
        = { status := 500, body := JsValue.obj [("error", JsValue.str e.message)] }) := by
  constructor <;> intro x hx <;> simp [payHandler, hx]

/-- Claim C4 witness: a concrete request against an upstream returning
ok, and one against an upstream throwing. -/
theorem pay_relays_or_500_witness :
    payHandler 1700000000000 ⟨JsValue.num 100, JsValue.str "a@b.co", JsValue.str "Ada"⟩
        (fun _ => Except.ok ⟨JsValue.str "created"⟩)
      = { status := 200, body := JsValue.str "created" } ∧
    payHandler 1700000000000 ⟨JsValue.num 100, JsValue.str "a@b.co", JsValue.str "Ada"⟩
        (fun _ => Except.error ⟨"Request failed with status code 401"⟩)
      = { status := 500,
          body := JsValue.obj [("error", JsValue.str "Request failed with status code 401")] } := by
  constructor
  · exact (pay_relays_or_500 1700000000000 ⟨JsValue.num 100, JsValue.str "a@b.co", JsValue.str "Ada"⟩
      (fun _ => Except.ok ⟨JsValue.str "created"⟩)).1 ⟨JsValue.str "created"⟩ rfl
  · exact (pay_relays_or_500 1700000000000 ⟨JsValue.num 100, JsValue.str "a@b.co", JsValue.str "Ada"⟩
      (fun _ => Except.error ⟨"Request failed with status code 401"⟩)).2
      ⟨"Request failed with status code 401"⟩ rfl

/-- Claim C5: the upstream body maps the inbound amount, email and name
1:1 (amount at top level, email and name under customer), stamps tx_ref
with the wall clock in milliseconds rendered as a string, and fixes
currency, redirect URL and payment options to literal constants that do
not depend on the inbound request. -/
theorem upstream_body_construction (now : Nat) (body : InboundPayBody) :
    (buildUpstreamBody now body).amount = body.amount ∧
    (buildUpstreamBody now body).customer.email = body.email ∧
    (buildUpstreamBody now body).customer.name = body.name ∧
    (buildUpstreamBody now body).tx_ref = toString now ∧
    (buildUpstreamBody now body).currency = "KES" ∧
    (buildUpstreamBody now body).redirect_url = "https://your-site.com/callback" ∧
    (buildUpstreamBody now body).payment_options = "card,mpesa,ussd" :=
  ⟨rfl, rfl, rfl, rfl, rfl, rfl, rfl⟩

/-- Claim C6: for all rational inputs, also zero and negative sizes, the
duration is baseDuration * speedMultiplier * (elementSize / 100); the
function is total and pure by construction. -/
theorem calculateAnimationDuration_eq (base mult size : ℚ) :
    calculateAnimationDuration base mult size = base * mult * (size / 100) := rfl

/-- Claim C7: from createScopedCounter(5), increment by 1 returns 6,
then decrement by 3 returns 3, then reset returns 5; in general reset
returns the value captured at construction time and getValue returns
the current count while leaving the closure state untouched. -/
theorem scoped_counter_behaviour :
    ((createScopedCounter 5).increment 1).1 = 6 ∧
    ((((createScopedCounter 5).increment 1).2).decrement 3).1 = 3 ∧
    (((((createScopedCounter 5).increment 1).2).decrement 3).2).reset.1 = 5 ∧
    (∀ i : Int, (createScopedCounter i).initialValue = i) ∧
    (∀ c : Counter, c.reset.1 = c.initialValue ∧ c.reset.2.count = c.initialValue) ∧
    (∀ c : Counter, c.getValue.1 = c.count ∧ c.getValue.2 = c) := by
  refine ⟨by decide, by decide, by decide, fun i => rfl, fun c => ⟨rfl, rfl⟩, fun c => ⟨rfl, rfl⟩⟩

end WebPages
